import Mathlib

/-!
Verification of the angelokurtis/opentelemetry-collector-contrib sources:
a shallow embedding of the configuration-validation and factory logic of
the transform processor, the resource processor, the file_storage
extension and the Tanzu Observability metrics exporter, together with a
model — written from the repository specification — of the OTTL
statement engine (values, paths, statements, executor), plus theorems
about the embedded code.
-/

/- ### file_storage extension (src/receiver/couchdbreceiver/factory.go, filestorage part) -/

namespace filestorage

def defaultMaxTransactionSize : Nat := 65536

def defaultReboundTriggerThresholdMib : Nat := 10

def defaultReboundNeededThresholdMib : Nat := 100

/-- Compaction check interval in nanoseconds (`time.Second * 5`). -/
def defaultCompactionInterval : Nat := 5 * 1000000000

/-- Embeds the `CompactionConfig` struct of the filestorage extension. -/
structure CompactionConfig where
  Directory : String
  OnStart : Bool
  OnRebound : Bool
  MaxTransactionSize : Nat
  ReboundNeededThresholdMiB : Nat
  ReboundTriggerThresholdMiB : Nat
  CheckInterval : Nat
  deriving Repr, DecidableEq

/-- Embeds the filestorage `Config` struct (the fields the factory sets). -/
structure Config where
  Directory : String
  Compaction : CompactionConfig
  Timeout : Nat
  deriving Repr, DecidableEq

/-- Modelled from the spec: `getDefaultDirectory()` is not under src/; it only
produces some platform path string, and no claim depends on its value. -/
def getDefaultDirectory : String := "/var/lib/otelcol/file_storage"

/-- Embeds `createDefaultConfig` of the filestorage extension: note that
`ReboundNeededThresholdMiB` is assigned `defaultReboundTriggerThresholdMib`
and `ReboundTriggerThresholdMiB` is assigned
`defaultReboundNeededThresholdMib`, exactly as the Go source does. -/
def createDefaultConfig : Config :=
  { Directory := getDefaultDirectory
    Compaction :=
      { Directory := getDefaultDirectory
        OnStart := false
        OnRebound := false
        MaxTransactionSize := defaultMaxTransactionSize
        ReboundNeededThresholdMiB := defaultReboundTriggerThresholdMib
        ReboundTriggerThresholdMiB := defaultReboundNeededThresholdMib
        CheckInterval := defaultCompactionInterval }
    Timeout := 1000000000 }

end filestorage

/- ### resource processor (src/processor/resourceprocessor/factory.go) -/

namespace resourceprocessor

/-- One attribute action (`attraction.Action`): a key and an action verb. -/
structure Action where
  key : String
  action : String
  deriving Repr, DecidableEq

/-- Embeds the resource processor `Config`: its component id and the
`AttributesActions` list. -/
structure Config where
  id : String
  AttributesActions : List Action
  deriving Repr, DecidableEq

inductive RPError where
  /-- `error creating <id> processor due to missing required field "attributes"` -/
  | missingRequiredField (id : String) (field : String)
  /-- `error creating <id> processor: <err>` (wrapping an attraction error) -/
  | invalidActions (id : String) (msg : String)
  deriving Repr, DecidableEq

/-- Opaque result of `attraction.NewAttrProc`. -/
structure AttrProc where
  actions : List Action
  deriving Repr, DecidableEq

/-- Modelled from the spec: `attraction.NewAttrProc` is not under src/ (the
resource processor is an external collaborator in the spec); it validates the
action list and fails on a malformed action. We model an action as accepted
when its key is nonempty. -/
def attractionNewAttrProc (actions : List Action) : Except String AttrProc :=
  if actions.all (fun a => a.key ≠ "") then .ok ⟨actions⟩
  else .error "missing key for action"

/-- Embeds `createAttrProcessor`: empty `AttributesActions` is rejected with
the missing-required-field error before `attraction.NewAttrProc` is called. -/
def createAttrProcessor (cfg : Config) : Except RPError AttrProc :=
  if cfg.AttributesActions.length = 0 then
    .error (.missingRequiredField cfg.id "attributes")
  else
    match attractionNewAttrProc cfg.AttributesActions with
    | .error e => .error (.invalidActions cfg.id e)
    | .ok p => .ok p

/-- Embeds `createDefaultConfig`: only the processor settings are populated,
`AttributesActions` is its zero value (the empty list). -/
def createDefaultConfig : Config :=
  { id := "resource", AttributesActions := [] }

/-- Opaque processor handed back by `processorhelper.NewXProcessor`. -/
structure Processor where
  attrProc : AttrProc
  deriving Repr, DecidableEq

/-- Embeds `createTracesProcessor`: Go returns the pair `(processor, error)`,
with `(nil, err)` when `createAttrProcessor` fails. -/
def createTracesProcessor (cfg : Config) : Option Processor × Option RPError :=
  match createAttrProcessor cfg with
  | .error e => (none, some e)
  | .ok ap => (some ⟨ap⟩, none)

/-- Embeds `createMetricsProcessor` (same shape as the traces factory). -/
def createMetricsProcessor (cfg : Config) : Option Processor × Option RPError :=
  match createAttrProcessor cfg with
  | .error e => (none, some e)
  | .ok ap => (some ⟨ap⟩, none)

/-- Embeds `createLogsProcessor` (same shape as the traces factory). -/
def createLogsProcessor (cfg : Config) : Option Processor × Option RPError :=
  match createAttrProcessor cfg with
  | .error e => (none, some e)
  | .ok ap => (some ⟨ap⟩, none)

end resourceprocessor

/- ### Tanzu Observability metrics exporter
   (src/exporter/tanzuobservabilityexporter/metrics_exporter.go) -/

namespace tanzuobservability

/-- The `Metrics` section of the exporter config. -/
structure MetricsConfig where
  Endpoint : String
  deriving Repr, DecidableEq

/-- The exporter's concrete `Config` type. -/
structure Config where
  Metrics : MetricsConfig
  deriving Repr, DecidableEq

/-- `component.ExporterConfig` as seen by `newMetricsExporter`: either the
expected concrete `*Config` or a value of some other config type (the Go
type assertion `c.(*Config)` distinguishes exactly these two cases). -/
inductive ExporterConfig where
  | tanzu (c : Config)
  | other (tag : String)
  deriving Repr, DecidableEq

inductive TOError where
  /-- `invalid config: ...` -/
  | invalidConfig (tag : String)
  /-- `metrics.endpoint required` -/
  | missingEndpoint
  /-- `failed to parse metrics.endpoint: ...` -/
  | endpointUnparsable (endpoint : String)
  /-- an error returned by the consumer creator -/
  | creatorFailed (msg : String)
  deriving Repr, DecidableEq

/-- Modelled from the spec: `Config.hasMetricsEndpoint` is not under src/;
it reports whether a metrics endpoint was supplied. -/
def Config.hasMetricsEndpoint (c : Config) : Bool :=
  c.Metrics.Endpoint ≠ ""

/-- Read a nonempty all-digit character list as a port number. -/
def parsePort : List Char → Option Nat
  | [] => none
  | cs =>
    if cs.all (fun c => c.isDigit) then
      some (cs.foldl (fun n c => 10 * n + (c.toNat - 48)) 0)
    else none

/-- Modelled from the spec: `Config.parseMetricsEndpoint` is not under src/;
it splits the endpoint at the first colon into a nonempty host and a numeric
port and fails on any other shape. -/
def Config.parseMetricsEndpoint (c : Config) : Except TOError (String × Nat) :=
  let chars := c.Metrics.Endpoint.toList
  let host := chars.takeWhile (fun ch => ch ≠ ':')
  match chars.dropWhile (fun ch => ch ≠ ':') with
  | ':' :: portChars =>
    if host.isEmpty then .error (.endpointUnparsable c.Metrics.Endpoint)
    else
      match parsePort portChars with
      | some p => .ok (⟨host⟩, p)
      | none => .error (.endpointUnparsable c.Metrics.Endpoint)
  | _ => .error (.endpointUnparsable c.Metrics.Endpoint)

/-- Opaque `metricsConsumer`. -/
structure MetricsConsumer where
  token : Nat
  deriving Repr, DecidableEq

/-- The `metricsExporter` struct: it holds the consumer the creator built. -/
structure MetricsExporter where
  consumer : MetricsConsumer
  deriving Repr, DecidableEq

/-- Embeds `newMetricsExporter`, returning the Go pair `(exporter, error)`:
reject a config of the wrong concrete type, a missing metrics endpoint, an
unparsable endpoint, or a creator failure; otherwise wrap the consumer
produced by the creator. -/
def newMetricsExporter (c : ExporterConfig)
    (creator : MetricsConfig → Except TOError MetricsConsumer) :
    Option MetricsExporter × Option TOError :=
  match c with
  | .other tag => (none, some (.invalidConfig tag))
  | .tanzu cfg =>
    if cfg.hasMetricsEndpoint = false then (none, some .missingEndpoint)
    else
      match cfg.parseMetricsEndpoint with
      | .error e => (none, some e)
      | .ok _ =>
        match creator cfg.Metrics with
        | .error e => (none, some e)
        | .ok consumer => (some ⟨consumer⟩, none)

end tanzuobservability

/- ### transform processor configuration
   (src/processor/transformprocessor/config.go); the OTTL statement parser
   it invokes lives outside src/ and is modelled from the spec. -/

namespace transformprocessor

def isIdentChar (c : Char) : Bool := c.isAlphanum || c = '_'

/-- The longest leading run of identifier characters. -/
def takeIdent : List Char → List Char
  | [] => []
  | c :: rest => if isIdentChar c then c :: takeIdent rest else []

/-- The editor (function) name a statement string starts with: its longest
identifier prefix. -/
def editorName (s : String) : String := ⟨takeIdent s.toList⟩

/-- The double-quote character delimiting string literals. -/
def quoteChar : Char := Char.ofNat 34

/-- Scan the characters of an argument list, starting just after an opening
parenthesis at the given nesting depth; the flag records whether the scan is
inside a double-quoted string literal. Returns the characters after the
argument list closes, or `none` when the parentheses never balance or a
string literal is unterminated. -/
def scanArgs : List Char → Nat → Bool → Option (List Char)
  | [], _, _ => none
  | c :: rest, depth, true =>
    if c = quoteChar then scanArgs rest depth false else scanArgs rest depth true
  | c :: rest, depth, false =>
    if c = quoteChar then scanArgs rest depth true
    else if c = '(' then scanArgs rest (depth + 1) false
    else if c = ')' then
      match depth with
      | 0 => none
      | 1 => some rest
      | d + 2 => scanArgs rest (d + 1) false
    else scanArgs rest depth false

/-- After the argument list, a statement either ends or carries a guard
clause introduced by ` where ` with a nonempty guard expression. -/
def guardSuffixOk (rest : List Char) : Bool :=
  rest.isEmpty || ((" where ".toList).isPrefixOf rest && rest.length > 7)

inductive ParseError where
  | undefinedFunction (name : String) (statement : String)
  | badSyntax (statement : String)
  deriving Repr, DecidableEq

/-- Modelled from the spec: the OTTL statement parser
(`ottlspan.Parser.ParseStatements` and friends) is not under src/. Grammar
(spec section 4.1): `editorName '(' argument* ')' ['where' booleanExpr]`.
The model checks that the statement starts with an identifier, that the
identifier names a registered function (rejecting unknown names with an
"undefined function" error naming the function and the statement), and that
a balanced parenthesized argument list follows, optionally followed by a
guard clause. -/
def parseStatement (functions : List String) (s : String) : Except ParseError Unit :=
  let name := editorName s
  if name = "" then .error (.badSyntax s)
  else if name ∈ functions then
    match s.toList.drop name.length with
    | '(' :: rest =>
      match scanArgs rest 1 false with
      | some remaining =>
        if guardSuffixOk remaining then .ok () else .error (.badSyntax s)
      | none => .error (.badSyntax s)
    | _ => .error (.badSyntax s)
  else .error (.undefinedFunction name s)

/-- Parse every statement of a list, returning the first failure (mirrors
`Parser.ParseStatements`, whose parsed output `Validate` discards). -/
def parseStatements (functions : List String) : List String → Except ParseError Unit
  | [] => .ok ()
  | s :: rest =>
    match parseStatement functions s with
    | .error e => .error e
    | .ok _ => parseStatements functions rest

/-- One `{context, statements[]}` group (`common.ContextStatements`). -/
structure ContextStatements where
  context : String
  statements : List String
  deriving Repr, DecidableEq

/-- Modelled from the spec: `ParserCollection.ParseContextStatements` is not
under src/; per the spec it must fully parse every statement of the group. -/
def parseContextStatements (functions : List String) (cs : ContextStatements) :
    Except ParseError Unit :=
  parseStatements functions cs.statements

/-- Parse every context-statements group, first failure wins (mirrors the
loop over `ParseContextStatements` in `Config.Validate`). -/
def parseAllContextStatements (functions : List String) :
    List ContextStatements → Except ParseError Unit
  | [] => .ok ()
  | cs :: rest =>
    match parseContextStatements functions cs with
    | .error e => .error e
    | .ok _ => parseAllContextStatements functions rest

/-- Modelled from the spec: `traces.Functions()` is not under src/. The
registry is fixed before parsing begins; these are the editors named in the
spec for the span context. Only membership matters to the claims. -/
def tracesFunctions : List String :=
  ["set", "delete_key", "keep_keys", "truncate_all", "replace_match", "limit"]

/-- Modelled from the spec: `metrics.Functions()` is not under src/. -/
def metricsFunctions : List String :=
  ["set", "delete_key", "keep_keys", "truncate_all", "replace_match", "convert_sum_to_gauge"]

/-- Modelled from the spec: `logs.Functions()` is not under src/. -/
def logsFunctions : List String :=
  ["set", "delete_key", "keep_keys", "truncate_all", "replace_match", "limit"]

/-- The legacy flat statement list for one signal (`SignalConfig`). -/
structure SignalConfig where
  Statements : List String
  deriving Repr, DecidableEq

/-- The transform processor `Config`: context-grouped statement lists plus
the deprecated flat `OTTLConfig` lists. -/
structure Config where
  TraceStatements : List ContextStatements
  MetricStatements : List ContextStatements
  LogStatements : List ContextStatements
  Traces : SignalConfig
  Metrics : SignalConfig
  Logs : SignalConfig
  deriving Repr, DecidableEq

inductive ConfigError where
  /-- `cannot use Traces, Metrics and/or Logs with TraceStatements,
  MetricStatements and/or LogStatements` -/
  | mixedShapes
  | parse (e : ParseError)
  deriving Repr, DecidableEq

/-- Embeds `Config.Validate` of the transform processor: reject mixing the
legacy flat lists with the context-grouped lists, then parse each nonempty
list in source order (legacy traces, grouped traces, legacy metrics, grouped
metrics, legacy logs, grouped logs), returning the first failure. -/
def Config.Validate (c : Config) : Option ConfigError :=
  if ((c.Traces.Statements.length > 0 || c.Metrics.Statements.length > 0
        || c.Logs.Statements.length > 0)
      && (c.TraceStatements.length > 0 || c.MetricStatements.length > 0
        || c.LogStatements.length > 0)) then
    some .mixedShapes
  else
    match (if c.Traces.Statements.length > 0 then
            parseStatements tracesFunctions c.Traces.Statements else .ok ()) with
    | .error e => some (.parse e)
    | .ok _ =>
    match (if c.TraceStatements.length > 0 then
            parseAllContextStatements tracesFunctions c.TraceStatements else .ok ()) with
    | .error e => some (.parse e)
    | .ok _ =>
    match (if c.Metrics.Statements.length > 0 then
            parseStatements metricsFunctions c.Metrics.Statements else .ok ()) with
    | .error e => some (.parse e)
    | .ok _ =>
    match (if c.MetricStatements.length > 0 then
            parseAllContextStatements metricsFunctions c.MetricStatements else .ok ()) with
    | .error e => some (.parse e)
    | .ok _ =>
    match (if c.Logs.Statements.length > 0 then
            parseStatements logsFunctions c.Logs.Statements else .ok ()) with
    | .error e => some (.parse e)
    | .ok _ =>
    match (if c.LogStatements.length > 0 then
            parseAllContextStatements logsFunctions c.LogStatements else .ok ()) with
    | .error e => some (.parse e)
    | .ok _ => none

/-- Some signal uses the legacy flat shape (the condition's first conjunct
in `Config.Validate`). -/
def Config.usesLegacyShape (c : Config) : Bool :=
  c.Traces.Statements.length > 0 || c.Metrics.Statements.length > 0
    || c.Logs.Statements.length > 0

/-- Some signal uses the current context-grouped shape (the condition's
second conjunct in `Config.Validate`). -/
def Config.usesContextShape (c : Config) : Bool :=
  c.TraceStatements.length > 0 || c.MetricStatements.length > 0
    || c.LogStatements.length > 0

/-- Every statement string in every list of the config parses (with the
function registry of its signal). -/
def Config.allStatementsParse (c : Config) : Prop :=
  (∀ s ∈ c.Traces.Statements, parseStatement tracesFunctions s = .ok ()) ∧
  (∀ cs ∈ c.TraceStatements, ∀ s ∈ cs.statements,
    parseStatement tracesFunctions s = .ok ()) ∧
  (∀ s ∈ c.Metrics.Statements, parseStatement metricsFunctions s = .ok ()) ∧
  (∀ cs ∈ c.MetricStatements, ∀ s ∈ cs.statements,
    parseStatement metricsFunctions s = .ok ()) ∧
  (∀ s ∈ c.Logs.Statements, parseStatement logsFunctions s = .ok ()) ∧
  (∀ cs ∈ c.LogStatements, ∀ s ∈ cs.statements,
    parseStatement logsFunctions s = .ok ())

instance : DecidableEq (Except ParseError Unit) := fun x y =>
  match x, y with
  | .ok (), .ok () => isTrue rfl
  | .error a, .error b =>
    if h : a = b then isTrue (by rw [h])
    else isFalse (by intro hc; injection hc; contradiction)
  | .ok _, .error _ => isFalse (by intro hc; cases hc)
  | .error _, .ok _ => isFalse (by intro hc; cases hc)

instance (c : Config) : Decidable c.allStatementsParse := by
  unfold Config.allStatementsParse
  infer_instance

/-- Some statement somewhere in the config names a function that is not in
the registered set of its signal. -/
def Config.referencesUnknownFunction (c : Config) : Prop :=
  (∃ s ∈ c.Traces.Statements, editorName s ∉ tracesFunctions) ∨
  (∃ cs ∈ c.TraceStatements, ∃ s ∈ cs.statements,
    editorName s ∉ tracesFunctions) ∨
  (∃ s ∈ c.Metrics.Statements, editorName s ∉ metricsFunctions) ∨
  (∃ cs ∈ c.MetricStatements, ∃ s ∈ cs.statements,
    editorName s ∉ metricsFunctions) ∨
  (∃ s ∈ c.Logs.Statements, editorName s ∉ logsFunctions) ∨
  (∃ cs ∈ c.LogStatements, ∃ s ∈ cs.statements,
    editorName s ∉ logsFunctions)

instance (c : Config) : Decidable c.referencesUnknownFunction := by
  unfold Config.referencesUnknownFunction
  infer_instance

end transformprocessor

/- ### OTTL statement engine. Modelled from the spec: the engine (value
   model, context binding layer, executor) is code of this repository that
   is not under src/; the definitions below follow spec sections 3, 4.2,
   4.4 and 4.5. -/

namespace ottl

/-- Modelled from the spec: the runtime value model, a tagged union
`{absent, bool, int64, float64, string, bytes, timestamp, list, map}`.
Float values are carried as opaque 64-bit patterns (`Nat` below `2^64`)
since no claim computes with them. -/
inductive Value where
  | absent
  | bool (b : Bool)
  | int (i : Int)
  | float (bits : Nat)
  | str (s : String)
  | bytes (bs : List Nat)
  | timestamp (unixNano : Nat)
  | list (items : List Value)
  | map (fields : List (String × Value))

/-- A path segment: a field name or an index into a list. -/
inductive PathSeg where
  | field (name : String)
  | index (i : Nat)
  deriving Repr, DecidableEq

/-- Modelled from the spec: a path is an ordered sequence of segments. -/
abbrev Path := List PathSeg

/-- Look a key up in a map value's field list (first binding wins). -/
def mapGet : List (String × Value) → String → Option Value
  | [], _ => none
  | (k, v) :: rest, key => if k = key then some v else mapGet rest key

/-- Write a key in a map value's field list: replace the first binding of
the key, or append a new binding when the key is missing. -/
def mapSet : List (String × Value) → String → Value → List (String × Value)
  | [], key, v => [(key, v)]
  | (k, w) :: rest, key, v =>
    if k = key then (key, v) :: rest else (k, w) :: mapSet rest key v

/-- Modelled from the spec (section 4.2): resolve a path against a value
for reading. A missing map key, an out-of-range list index, or a segment
applied to a value of the wrong shape resolves to `absent` — never an
error. -/
def getPath : Value → Path → Value
  | v, [] => v
  | .map m, .field k :: rest =>
    match mapGet m k with
    | some v => getPath v rest
    | none => .absent
  | .list items, .index i :: rest =>
    match items[i]? with
    | some v => getPath v rest
    | none => .absent
  | _, _ :: _ => .absent

/-- Whether every segment of the path resolves structurally: each field
segment finds its key in a map, each index segment is in range of a list. -/
def pathDefined : Value → Path → Bool
  | _, [] => true
  | .map m, .field k :: rest =>
    match mapGet m k with
    | some v => pathDefined v rest
    | none => false
  | .list items, .index i :: rest =>
    match items[i]? with
    | some v => pathDefined v rest
    | none => false
  | _, _ :: _ => false

/-- Modelled from the spec (section 4.2): resolve a path for writing:
missing intermediate maps are created; a field segment against a non-map
target rebuilds the target as a fresh map; an out-of-range list index
leaves the list unchanged. -/
def setPath : Value → Path → Value → Value
  | _, [], v => v
  | .map m, .field k :: rest, v =>
    .map (mapSet m k (setPath ((mapGet m k).getD (.map [])) rest v))
  | _, .field k :: rest, v =>
    .map (mapSet [] k (setPath (.map []) rest v))
  | .list items, .index i :: rest, v =>
    match items[i]? with
    | some c => .list (items.set i (setPath c rest v))
    | none => .list items
  | target, .index _ :: _, _ => target

/-- An argument expression: a literal value or a path reference. -/
inductive Expr where
  | lit (v : Value)
  | path (p : Path)

/-- Evaluate an argument expression against a record. -/
def evalExpr (record : Value) : Expr → Value
  | .lit v => v
  | .path p => getPath record p

/-- Modelled from the spec (section 4.4): scalar comparison. Values compare
only within the same tag family; comparing incompatible tags yields false
rather than erroring. `absent` equals only `absent` (equality-to-absent);
structured values are not compared by the guard evaluator. -/
def valueEqB : Value → Value → Bool
  | .absent, .absent => true
  | .bool a, .bool b => a == b
  | .int a, .int b => a == b
  | .float a, .float b => a == b
  | .str a, .str b => a == b
  | .bytes a, .bytes b => a == b
  | .timestamp a, .timestamp b => a == b
  | _, _ => false

/-- A boolean guard: equality comparisons combined with `and`/`or`. -/
inductive Guard where
  | eqTest (a b : Expr)
  | and (g1 g2 : Guard)
  | or (g1 g2 : Guard)

/-- Evaluate a guard against a record; `and`/`or` short-circuit
left-to-right. -/
def evalGuard (record : Value) : Guard → Bool
  | .eqTest a b => valueEqB (evalExpr record a) (evalExpr record b)
  | .and g1 g2 => evalGuard record g1 && evalGuard record g2
  | .or g1 g2 => evalGuard record g1 || evalGuard record g2

/-- An editor invocation the executor can apply (the `set` editor: write
the value of an expression to a path). -/
inductive Editor where
  | set (target : Path) (value : Expr)

def applyEditor (record : Value) : Editor → Value
  | .set target value => setPath record target (evalExpr record value)

/-- Modelled from the spec (section 3): a compiled statement is an editor
invocation plus an optional boolean guard. -/
structure Statement where
  editor : Editor
  guard : Option Guard

/-- Apply one statement to one record: evaluate the guard (absent guard is
treated as true); when true, invoke the editor. -/
def applyStatement (stmt : Statement) (record : Value) : Value :=
  match stmt.guard with
  | none => applyEditor record stmt.editor
  | some g => if evalGuard record g then applyEditor record stmt.editor else record

/-- Modelled from the spec (section 4.5): the executor applies the
statements of a group to a record strictly in declaration order. -/
def applyStatements (stmts : List Statement) (record : Value) : Value :=
  stmts.foldl (fun r stmt => applyStatement stmt r) record

end ottl

/- ### Helper lemmas -/

namespace transformprocessor

theorem parseStatements_ite (fns : List String) (l : List String) :
    (if l.length > 0 then parseStatements fns l else .ok ()) = parseStatements fns l := by
  cases l with
  | nil => simp [parseStatements]
  | cons s rest => simp

theorem parseAllContextStatements_ite (fns : List String) (l : List ContextStatements) :
    (if l.length > 0 then parseAllContextStatements fns l else .ok ())
      = parseAllContextStatements fns l := by
  cases l with
  | nil => simp [parseAllContextStatements]
  | cons cs rest => simp

theorem parseStatements_ok_iff (fns : List String) (l : List String) :
    parseStatements fns l = .ok () ↔ ∀ s ∈ l, parseStatement fns s = .ok () := by
  induction l with
  | nil => simp [parseStatements]
  | cons s rest ih =>
    simp only [parseStatements, List.forall_mem_cons]
    cases h : parseStatement fns s with
    | error e => simp [h]
    | ok u => cases u; simp [h, ih]

theorem parseAllContextStatements_ok_iff (fns : List String) (l : List ContextStatements) :
    parseAllContextStatements fns l = .ok () ↔
      ∀ cs ∈ l, ∀ s ∈ cs.statements, parseStatement fns s = .ok () := by
  induction l with
  | nil => simp [parseAllContextStatements]
  | cons cs rest ih =>
    simp only [parseAllContextStatements, parseContextStatements, List.forall_mem_cons]
    rw [← parseStatements_ok_iff]
    cases h : parseStatements fns cs.statements with
    | error e => simp [h]
    | ok u => cases u; simp [h, ih]

theorem validate_eq_none_iff (c : Config) :
    c.Validate = none ↔
      (c.usesLegacyShape && c.usesContextShape) = false ∧ c.allStatementsParse := by
  unfold Config.Validate
  rw [parseStatements_ite, parseAllContextStatements_ite, parseStatements_ite,
    parseAllContextStatements_ite, parseStatements_ite, parseAllContextStatements_ite]
  unfold Config.allStatementsParse
  rw [← parseStatements_ok_iff tracesFunctions c.Traces.Statements,
    ← parseAllContextStatements_ok_iff tracesFunctions c.TraceStatements,
    ← parseStatements_ok_iff metricsFunctions c.Metrics.Statements,
    ← parseAllContextStatements_ok_iff metricsFunctions c.MetricStatements,
    ← parseStatements_ok_iff logsFunctions c.Logs.Statements,
    ← parseAllContextStatements_ok_iff logsFunctions c.LogStatements]
  show (if (c.usesLegacyShape && c.usesContextShape) = true then _ else _) = none ↔ _
  cases hc : (c.usesLegacyShape && c.usesContextShape) with
  | true => simp [hc]
  | false =>
    simp only [if_neg (by simp [hc] : ¬((c.usesLegacyShape && c.usesContextShape) = true))]
    cases h1 : parseStatements tracesFunctions c.Traces.Statements with
    | error e => simp [h1]
    | ok u =>
      cases u
      cases h2 : parseAllContextStatements tracesFunctions c.TraceStatements with
      | error e => simp [h1, h2]
      | ok u =>
        cases u
        cases h3 : parseStatements metricsFunctions c.Metrics.Statements with
        | error e => simp [h1, h2, h3]
        | ok u =>
          cases u
          cases h4 : parseAllContextStatements metricsFunctions c.MetricStatements with
          | error e => simp [h1, h2, h3, h4]
          | ok u =>
            cases u
            cases h5 : parseStatements logsFunctions c.Logs.Statements with
            | error e => simp [h1, h2, h3, h4, h5]
            | ok u =>
              cases u
              cases h6 : parseAllContextStatements logsFunctions c.LogStatements with
              | error e => simp [h1, h2, h3, h4, h5, h6]
              | ok u => cases u; simp [h1, h2, h3, h4, h5, h6]

theorem validate_eq_mixedShapes_iff (c : Config) :
    c.Validate = some .mixedShapes ↔ (c.usesLegacyShape && c.usesContextShape) = true := by
  unfold Config.Validate
  show (if (c.usesLegacyShape && c.usesContextShape) = true then _ else _)
      = some ConfigError.mixedShapes ↔ _
  cases hc : (c.usesLegacyShape && c.usesContextShape) with
  | true => simp [hc]
  | false =>
    rw [if_neg (by simp : ¬(false = true))]
    cases h1 : (if c.Traces.Statements.length > 0 then
        parseStatements tracesFunctions c.Traces.Statements else .ok ()) with
    | error e => simp [h1]
    | ok u =>
      cases u
      cases h2 : (if c.TraceStatements.length > 0 then
          parseAllContextStatements tracesFunctions c.TraceStatements else .ok ()) with
      | error e => simp [h1, h2]
      | ok u =>
        cases u
        cases h3 : (if c.Metrics.Statements.length > 0 then
            parseStatements metricsFunctions c.Metrics.Statements else .ok ()) with
        | error e => simp [h1, h2, h3]
        | ok u =>
          cases u
          cases h4 : (if c.MetricStatements.length > 0 then
              parseAllContextStatements metricsFunctions c.MetricStatements else .ok ()) with
          | error e => simp [h1, h2, h3, h4]
          | ok u =>
            cases u
            cases h5 : (if c.Logs.Statements.length > 0 then
                parseStatements logsFunctions c.Logs.Statements else .ok ()) with
            | error e => simp [h1, h2, h3, h4, h5]
            | ok u =>
              cases u
              cases h6 : (if c.LogStatements.length > 0 then
                  parseAllContextStatements logsFunctions c.LogStatements else .ok ()) with
              | error e => simp [h1, h2, h3, h4, h5, h6]
              | ok u => cases u; simp [h1, h2, h3, h4, h5, h6]

theorem editorName_mem_of_parse_ok (fns : List String) (s : String)
    (h : parseStatement fns s = .ok ()) : editorName s ∈ fns := by
  by_cases h1 : editorName s ∈ fns
  · exact h1
  · by_cases h0 : editorName s = "" <;> simp [parseStatement, h0, h1] at h

theorem parseStatement_undefined (fns : List String) (s : String)
    (h0 : editorName s ≠ "") (h1 : editorName s ∉ fns) :
    parseStatement fns s = .error (.undefinedFunction (editorName s) s) := by
  simp [parseStatement, h0, h1]

end transformprocessor

namespace ottl

theorem mapGet_mapSet_self (m : List (String × Value)) (k : String) (v : Value) :
    mapGet (mapSet m k v) k = some v := by
  induction m with
  | nil => simp [mapSet, mapGet]
  | cons kv rest ih =>
    obtain ⟨k', w⟩ := kv
    by_cases h : k' = k
    · simp [mapSet, mapGet, h]
    · simp [mapSet, mapGet, h, ih]

theorem mapSet_mapSet_self (m : List (String × Value)) (k : String) (a b : Value) :
    mapSet (mapSet m k a) k b = mapSet m k b := by
  induction m with
  | nil => simp [mapSet]
  | cons kv rest ih =>
    obtain ⟨k', w⟩ := kv
    by_cases h : k' = k
    · simp [mapSet, h]
    · simp [mapSet, h, ih]

theorem setPath_idem (p : Path) (v : Value) :
    ∀ x : Value, setPath (setPath x p v) p v = setPath x p v := by
  induction p with
  | nil => intro x; simp [setPath]
  | cons seg rest ih =>
    intro x
    cases seg with
    | field k =>
      cases x with
      | map m => simp [setPath, mapGet_mapSet_self, ih, mapSet_mapSet_self]
      | absent => simp [setPath, mapSet, mapGet, ih]
      | bool b => simp [setPath, mapSet, mapGet, ih]
      | int i => simp [setPath, mapSet, mapGet, ih]
      | float bits => simp [setPath, mapSet, mapGet, ih]
      | str s => simp [setPath, mapSet, mapGet, ih]
      | bytes bs => simp [setPath, mapSet, mapGet, ih]
      | timestamp t => simp [setPath, mapSet, mapGet, ih]
      | list items => simp [setPath, mapSet, mapGet, ih]
    | index i =>
      cases x with
      | list items =>
        cases h : items[i]? with
        | some c =>
          have hi : i < items.length := (List.getElem?_eq_some.mp h).1
          have h2 : (items.set i (setPath c rest v))[i]? = some (setPath c rest v) :=
            List.getElem?_set_eq_of_lt _ (by simpa using hi)
          simp [setPath, h, h2, ih, List.set_set]
        | none => simp [setPath, h]
      | absent => simp [setPath]
      | bool b => simp [setPath]
      | int j => simp [setPath]
      | float bits => simp [setPath]
      | str s => simp [setPath]
      | bytes bs => simp [setPath]
      | timestamp t => simp [setPath]
      | map m => simp [setPath]

theorem getPath_absent_of_not_defined :
    ∀ (p : Path) (x : Value), pathDefined x p = false → getPath x p = .absent := by
  intro p
  induction p with
  | nil => intro x h; simp [pathDefined] at h
  | cons seg rest ih =>
    intro x h
    cases seg with
    | field k =>
      cases x with
      | map m =>
        cases hm : mapGet m k with
        | some c =>
          simp only [pathDefined, hm] at h
          simp only [getPath, hm]
          exact ih c h
        | none => simp [getPath, hm]
      | absent => rfl
      | bool b => rfl
      | int i => rfl
      | float bits => rfl
      | str s => rfl
      | bytes bs => rfl
      | timestamp t => rfl
      | list items => rfl
    | index i =>
      cases x with
      | list items =>
        cases hm : items[i]? with
        | some c =>
          simp only [pathDefined, hm] at h
          simp only [getPath, hm]
          exact ih c h
        | none => simp [getPath, hm]
      | absent => rfl
      | bool b => rfl
      | int j => rfl
      | float bits => rfl
      | str s => rfl
      | bytes bs => rfl
      | timestamp t => rfl
      | map m => rfl

/-- A statement whose editor is idempotent on every record is itself
idempotent, whatever its guard. -/
theorem applyStatement_idem_of_editor_idem (stmt : Statement) (record : Value)
    (hidem : ∀ r : Value,
      applyEditor (applyEditor r stmt.editor) stmt.editor = applyEditor r stmt.editor) :
    applyStatement stmt (applyStatement stmt record) = applyStatement stmt record := by
  obtain ⟨ed, gu⟩ := stmt
  simp only at hidem
  cases gu with
  | none =>
    simp only [applyStatement]
    exact hidem record
  | some g =>
    simp only [applyStatement]
    by_cases h1 : evalGuard record g = true
    · simp only [if_pos h1]
      by_cases h2 : evalGuard (applyEditor record ed) g = true
      · simp only [if_pos h2]
        exact hidem record
      · simp only [if_neg h2]
    · simp only [if_neg h1]

end ottl

/- ### Claim theorems -/

/-- C9: the file_storage extension's default config assigns the two rebound
threshold constants crosswise: `ReboundNeededThresholdMiB` gets
`defaultReboundTriggerThresholdMib` (10) and `ReboundTriggerThresholdMiB`
gets `defaultReboundNeededThresholdMib` (100), so by default the trigger
threshold exceeds the needed threshold. -/
theorem c9_filestorage_default_thresholds_swapped :
    filestorage.createDefaultConfig.Compaction.ReboundNeededThresholdMiB = 10 ∧
    filestorage.createDefaultConfig.Compaction.ReboundNeededThresholdMiB
        = filestorage.defaultReboundTriggerThresholdMib ∧
    filestorage.createDefaultConfig.Compaction.ReboundTriggerThresholdMiB = 100 ∧
    filestorage.createDefaultConfig.Compaction.ReboundTriggerThresholdMiB
        = filestorage.defaultReboundNeededThresholdMib ∧
    filestorage.createDefaultConfig.Compaction.ReboundNeededThresholdMiB
        < filestorage.createDefaultConfig.Compaction.ReboundTriggerThresholdMiB :=
  ⟨rfl, rfl, rfl, rfl, by decide⟩

/-- C8: every resource-processor factory function rejects a config with no
attribute actions — in particular the default config — returning a nil
processor and an error naming the missing required field "attributes"; and
a processor is returned only when at least one action is configured and
accepted by `attraction.NewAttrProc`. -/
theorem c8_resourceprocessor_requires_attributes :
    (∀ cfg : resourceprocessor.Config, cfg.AttributesActions = [] →
      resourceprocessor.createTracesProcessor cfg
          = (none, some (.missingRequiredField cfg.id "attributes")) ∧
      resourceprocessor.createMetricsProcessor cfg
          = (none, some (.missingRequiredField cfg.id "attributes")) ∧
      resourceprocessor.createLogsProcessor cfg
          = (none, some (.missingRequiredField cfg.id "attributes"))) ∧
    resourceprocessor.createDefaultConfig.AttributesActions = [] ∧
    (∀ (cfg : resourceprocessor.Config) (pr : resourceprocessor.Processor),
      ((resourceprocessor.createTracesProcessor cfg).1 = some pr ∨
        (resourceprocessor.createMetricsProcessor cfg).1 = some pr ∨
        (resourceprocessor.createLogsProcessor cfg).1 = some pr) →
      cfg.AttributesActions ≠ [] ∧
        resourceprocessor.attractionNewAttrProc cfg.AttributesActions = .ok pr.attrProc) := by
  refine ⟨?_, rfl, ?_⟩
  · intro cfg h
    have hlen : cfg.AttributesActions.length = 0 := by rw [h]; rfl
    refine ⟨?_, ?_, ?_⟩ <;>
      simp [resourceprocessor.createTracesProcessor,
        resourceprocessor.createMetricsProcessor,
        resourceprocessor.createLogsProcessor,
        resourceprocessor.createAttrProcessor, hlen]
  · intro cfg pr h
    have key : resourceprocessor.createAttrProcessor cfg = .ok pr.attrProc →
        cfg.AttributesActions ≠ [] ∧
          resourceprocessor.attractionNewAttrProc cfg.AttributesActions = .ok pr.attrProc := by
      intro hca
      unfold resourceprocessor.createAttrProcessor at hca
      by_cases hlen : cfg.AttributesActions.length = 0
      · simp [hlen] at hca
      · constructor
        · intro hnil
          exact hlen (by rw [hnil]; rfl)
        · cases hat : resourceprocessor.attractionNewAttrProc cfg.AttributesActions with
          | error e => rw [if_neg hlen, hat] at hca; cases hca
          | ok p => rw [if_neg hlen, hat] at hca; injection hca with hh; rw [hh]
    rcases h with h | h | h
    · unfold resourceprocessor.createTracesProcessor at h
      cases hca : resourceprocessor.createAttrProcessor cfg with
      | error e => rw [hca] at h; cases h
      | ok ap =>
        rw [hca] at h
        injection h with hpr
        apply key
        rw [hca, ← hpr]
    · unfold resourceprocessor.createMetricsProcessor at h
      cases hca : resourceprocessor.createAttrProcessor cfg with
      | error e => rw [hca] at h; cases h
      | ok ap =>
        rw [hca] at h
        injection h with hpr
        apply key
        rw [hca, ← hpr]
    · unfold resourceprocessor.createLogsProcessor at h
      cases hca : resourceprocessor.createAttrProcessor cfg with
      | error e => rw [hca] at h; cases h
      | ok ap =>
        rw [hca] at h
        injection h with hpr
        apply key
        rw [hca, ← hpr]

/-- C8 witness: the default config (empty action list) makes the traces
factory return a nil processor and the missing-"attributes" error. -/
theorem c8_witness :
    resourceprocessor.createTracesProcessor resourceprocessor.createDefaultConfig
      = (none, some (.missingRequiredField "resource" "attributes")) :=
  (c8_resourceprocessor_requires_attributes.1 resourceprocessor.createDefaultConfig rfl).1

/-- C10: `newMetricsExporter` returns a nil exporter with a non-nil error
exactly when the config is of the wrong concrete type, has no metrics
endpoint, has an unparsable endpoint, or the creator fails; on success the
exporter wraps the consumer the creator produced; an exporter is never
returned alongside an error. -/
theorem c10_tanzu_newMetricsExporter_spec :
    ∀ (c : tanzuobservability.ExporterConfig)
      (creator : tanzuobservability.MetricsConfig →
        Except tanzuobservability.TOError tanzuobservability.MetricsConsumer),
      ((tanzuobservability.newMetricsExporter c creator).1.isSome
          = (tanzuobservability.newMetricsExporter c creator).2.isNone) ∧
      ((tanzuobservability.newMetricsExporter c creator).2 = none ↔
        (∃ cfg : tanzuobservability.Config, c = .tanzu cfg
          ∧ cfg.hasMetricsEndpoint = true
          ∧ (∃ hp, cfg.parseMetricsEndpoint = .ok hp)
          ∧ (∃ con, creator cfg.Metrics = .ok con))) ∧
      (∀ (cfg : tanzuobservability.Config) (con : tanzuobservability.MetricsConsumer),
        c = .tanzu cfg → cfg.hasMetricsEndpoint = true →
        (∃ hp, cfg.parseMetricsEndpoint = .ok hp) →
        creator cfg.Metrics = .ok con →
        tanzuobservability.newMetricsExporter c creator = (some ⟨con⟩, none)) := by
  intro c creator
  cases c with
  | other tag =>
    refine ⟨rfl, ?_, ?_⟩
    · simp [tanzuobservability.newMetricsExporter]
    · intro cfg con hc
      cases hc
  | tanzu cfg =>
    cases hE : cfg.hasMetricsEndpoint with
    | false =>
      refine ⟨?_, ?_, ?_⟩
      · simp [tanzuobservability.newMetricsExporter, hE]
      · simp only [tanzuobservability.newMetricsExporter, hE]
        constructor
        · intro hcontra
          cases hcontra
        · rintro ⟨cfg', heq, hE', _, _⟩
          injection heq with h'
          rw [← h'] at hE'
          rw [hE] at hE'
          cases hE'
      · intro cfg' con heq hE' _ _
        injection heq with h'
        rw [← h'] at hE'
        rw [hE] at hE'
        cases hE'
    | true =>
      cases hP : cfg.parseMetricsEndpoint with
      | error e =>
        refine ⟨?_, ?_, ?_⟩
        · simp [tanzuobservability.newMetricsExporter, hE, hP]
        · simp only [tanzuobservability.newMetricsExporter, hE, hP]
          simp only [Bool.true_eq_false, if_neg (by simp : ¬False)]
          constructor
          · intro hcontra
            cases hcontra
          · rintro ⟨cfg', heq, _, ⟨hp, hP'⟩, _⟩
            injection heq with h'
            rw [← h'] at hP'
            rw [hP] at hP'
            cases hP'
        · rintro cfg' con heq _ ⟨hp, hP'⟩ _
          injection heq with h'
          rw [← h'] at hP'
          rw [hP] at hP'
          cases hP'
      | ok hp =>
        cases hC : creator cfg.Metrics with
        | error e =>
          refine ⟨?_, ?_, ?_⟩
          · simp [tanzuobservability.newMetricsExporter, hE, hP, hC]
          · simp only [tanzuobservability.newMetricsExporter, hE, hP, hC]
            simp only [Bool.true_eq_false, if_neg (by simp : ¬False)]
            constructor
            · intro hcontra
              cases hcontra
            · rintro ⟨cfg', heq, _, _, ⟨con, hC'⟩⟩
              injection heq with h'
              rw [← h'] at hC'
              rw [hC] at hC'
              cases hC'
          · rintro cfg' con heq _ _ hC'
            injection heq with h'
            rw [← h'] at hC'
            rw [hC] at hC'
            cases hC'
        | ok con =>
          refine ⟨?_, ?_, ?_⟩
          · simp [tanzuobservability.newMetricsExporter, hE, hP, hC]
          · simp only [tanzuobservability.newMetricsExporter, hE, hP, hC]
            simp only [Bool.true_eq_false, if_neg (by simp : ¬False)]
            constructor
            · intro _
              exact ⟨cfg, rfl, hE, ⟨hp, hP⟩, ⟨con, hC⟩⟩
            · intro _
              trivial
          · rintro cfg' con' heq _ _ hC'
            injection heq with h'
            rw [← h'] at hC'
            rw [hC] at hC'
            injection hC' with hcon
            simp only [tanzuobservability.newMetricsExporter, hE, hP, hC]
            simp only [Bool.true_eq_false, if_neg (by simp : ¬False)]
            rw [hcon]

/-- C10 witness: a well-formed endpoint and a succeeding creator yield the
exporter wrapping that creator's consumer, with no error. -/
theorem c10_witness :
    tanzuobservability.newMetricsExporter
        (.tanzu { Metrics := { Endpoint := "proxy:2878" } })
        (fun _ => .ok { token := 7 })
      = (some { consumer := { token := 7 } }, none) :=
  (c10_tanzu_newMetricsExporter_spec
      (.tanzu { Metrics := { Endpoint := "proxy:2878" } })
      (fun _ => .ok { token := 7 })).2.2
    { Metrics := { Endpoint := "proxy:2878" } } { token := 7 }
    rfl (by decide) ⟨("proxy", 2878), by rfl⟩ rfl

/-- C1 counterexample: a config that uses the legacy flat shape for traces
only and the context-grouped shape for logs only — different signals — is
nevertheless rejected by `Validate` with the mixed-shapes error, refuting
the claim's acceptance of cross-signal mixing. -/
theorem c1_counterexample_cross_signal_mix_rejected :
    transformprocessor.Config.Validate
      { TraceStatements := []
        MetricStatements := []
        LogStatements := [{ context := "log", statements := ["set(body, \"b\")"] }]
        Traces := { Statements := ["set(name, \"a\")"] }
        Metrics := { Statements := [] }
        Logs := { Statements := [] } } = some .mixedShapes := by
  rfl

/-- C1 (amended): `Validate` returns the mixed-shapes error exactly when
some signal uses the legacy flat shape and some signal — the same or a
different one — uses the context-grouped shape: the two shapes are mutually
exclusive across the whole configuration, which covers the both-shapes-for-
one-signal case the claim states and rejects cross-signal mixing too. -/
theorem c1_amended_mixed_shapes_iff (c : transformprocessor.Config) :
    c.Validate = some .mixedShapes ↔
      (c.usesLegacyShape && c.usesContextShape) = true :=
  transformprocessor.validate_eq_mixedShapes_iff c

/-- C2 counterexample: in a config mixing the two shapes every statement
parses, yet `Validate` is non-nil — refuting the claim's "nil if and only
if every statement parses". -/
theorem c2_counterexample_mixed_config_all_parse :
    transformprocessor.Config.allStatementsParse
      { TraceStatements := []
        MetricStatements := []
        LogStatements := [{ context := "log", statements := ["set(severity_text, \"INFO\")"] }]
        Traces := { Statements := ["set(status, \"Ok\")"] }
        Metrics := { Statements := [] }
        Logs := { Statements := [] } } ∧
    transformprocessor.Config.Validate
      { TraceStatements := []
        MetricStatements := []
        LogStatements := [{ context := "log", statements := ["set(severity_text, \"INFO\")"] }]
        Traces := { Statements := ["set(status, \"Ok\")"] }
        Metrics := { Statements := [] }
        Logs := { Statements := [] } } ≠ none := by
  constructor
  · decide
  · decide

/-- C2 (amended): provided the config does not mix the legacy and the
context-grouped shapes, `Validate` returns nil if and only if every
statement string in every signal's legacy list and every context-grouped
list parses successfully (the model's `Validate` is a pure function of the
config, so it touches no telemetry). -/
theorem c2_amended_validate_none_iff_all_parse (c : transformprocessor.Config)
    (h : (c.usesLegacyShape && c.usesContextShape) = false) :
    c.Validate = none ↔ c.allStatementsParse := by
  rw [transformprocessor.validate_eq_none_iff]
  constructor
  · intro hp
    exact hp.2
  · intro hp
    exact ⟨h, hp⟩

/-- C2 witness: a legacy-only config whose single statement parses. -/
theorem c2_witness :
    (transformprocessor.Config.usesLegacyShape
        { TraceStatements := []
          MetricStatements := []
          LogStatements := []
          Traces := { Statements := ["set(name, \"prod\")"] }
          Metrics := { Statements := [] }
          Logs := { Statements := [] } }
      && transformprocessor.Config.usesContextShape
        { TraceStatements := []
          MetricStatements := []
          LogStatements := []
          Traces := { Statements := ["set(name, \"prod\")"] }
          Metrics := { Statements := [] }
          Logs := { Statements := [] } }) = false ∧
    (transformprocessor.Config.Validate
        { TraceStatements := []
          MetricStatements := []
          LogStatements := []
          Traces := { Statements := ["set(name, \"prod\")"] }
          Metrics := { Statements := [] }
          Logs := { Statements := [] } } = none ↔
      transformprocessor.Config.allStatementsParse
        { TraceStatements := []
          MetricStatements := []
          LogStatements := []
          Traces := { Statements := ["set(name, \"prod\")"] }
          Metrics := { Statements := [] }
          Logs := { Statements := [] } }) :=
  ⟨by decide, c2_amended_validate_none_iff_all_parse _ (by decide)⟩

/-- C3: a configuration containing a statement whose editor name is not in
the registered function set of its signal never validates; moreover the
parser rejects any statement whose leading identifier is not a registered
function with an error naming the undefined function and the statement. -/
theorem c3_unknown_function_rejected :
    (∀ c : transformprocessor.Config,
      c.referencesUnknownFunction → c.Validate ≠ none) ∧
    (∀ (fns : List String) (s : String),
      transformprocessor.editorName s ≠ "" →
      transformprocessor.editorName s ∉ fns →
        transformprocessor.parseStatement fns s
          = .error (.undefinedFunction (transformprocessor.editorName s) s)) := by
  constructor
  · intro c href hnone
    rw [transformprocessor.validate_eq_none_iff] at hnone
    obtain ⟨-, h1, h2, h3, h4, h5, h6⟩ := hnone
    rcases href with h | h | h | h | h | h
    · obtain ⟨s, hs, hsn⟩ := h
      exact hsn (transformprocessor.editorName_mem_of_parse_ok _ _ (h1 s hs))
    · obtain ⟨cs, hcs, s, hs, hsn⟩ := h
      exact hsn (transformprocessor.editorName_mem_of_parse_ok _ _ (h2 cs hcs s hs))
    · obtain ⟨s, hs, hsn⟩ := h
      exact hsn (transformprocessor.editorName_mem_of_parse_ok _ _ (h3 s hs))
    · obtain ⟨cs, hcs, s, hs, hsn⟩ := h
      exact hsn (transformprocessor.editorName_mem_of_parse_ok _ _ (h4 cs hcs s hs))
    · obtain ⟨s, hs, hsn⟩ := h
      exact hsn (transformprocessor.editorName_mem_of_parse_ok _ _ (h5 s hs))
    · obtain ⟨cs, hcs, s, hs, hsn⟩ := h
      exact hsn (transformprocessor.editorName_mem_of_parse_ok _ _ (h6 cs hcs s hs))
  · intro fns s h0 h1
    exact transformprocessor.parseStatement_undefined fns s h0 h1

/-- C3 witness: a config whose only trace statement calls the unregistered
function `frobnicate` fails validation, and the parser's error names the
function and the statement. -/
theorem c3_witness :
    transformprocessor.Config.Validate
      { TraceStatements := []
        MetricStatements := []
        LogStatements := []
        Traces := { Statements := ["frobnicate(name)"] }
        Metrics := { Statements := [] }
        Logs := { Statements := [] } } ≠ none ∧
    transformprocessor.parseStatement transformprocessor.tracesFunctions
        "frobnicate(name)"
      = .error (.undefinedFunction "frobnicate" "frobnicate(name)") := by
  constructor
  · exact c3_unknown_function_rejected.1 _ (by decide)
  · have e : transformprocessor.editorName "frobnicate(name)" = "frobnicate" := by decide
    have h := c3_unknown_function_rejected.2 transformprocessor.tracesFunctions
      "frobnicate(name)" (by decide) (by decide)
    rw [e] at h
    exact h

/-- C7: parsing is deterministic — `Validate` and the statement parser are
pure functions of their input, so two invocations on the same input give
the same accept/reject outcome. -/
theorem c7_parsing_deterministic :
    (∀ c : transformprocessor.Config, c.Validate = c.Validate) ∧
    (∀ (fns : List String) (s : String),
      transformprocessor.parseStatement fns s
        = transformprocessor.parseStatement fns s) :=
  ⟨fun _ => rfl, fun _ _ => rfl⟩

/-- C4: resolving a path the record's shape does not support yields the
absent value rather than raising — `getPath` is a total function and
returns `absent` whenever the path fails to resolve structurally. -/
theorem c4_unsupported_field_resolves_absent (record : ottl.Value) (p : ottl.Path)
    (h : ottl.pathDefined record p = false) :
    ottl.getPath record p = .absent :=
  ottl.getPath_absent_of_not_defined p record h

/-- C4 witness: a span-like record without an `env` attribute resolves the
`env` field to absent. -/
theorem c4_witness :
    ottl.pathDefined (.map [("name", .str "checkout")]) [.field "env"] = false ∧
    ottl.getPath (.map [("name", .str "checkout")]) [.field "env"] = .absent :=
  ⟨by decide,
    c4_unsupported_field_resolves_absent
      (.map [("name", .str "checkout")]) [.field "env"] (by decide)⟩

/-- C5: applying an empty statement group leaves any record unchanged. -/
theorem c5_empty_group_leaves_record_unchanged (record : ottl.Value) :
    ottl.applyStatements [] record = record := rfl

/-- C6: a statement that sets a path to a literal is idempotent — whatever
its guard, applying it twice gives the same record state as applying it
once. -/
theorem c6_set_literal_idempotent (target : ottl.Path) (lit : ottl.Value)
    (g : Option ottl.Guard) (record : ottl.Value) :
    ottl.applyStatement { editor := .set target (.lit lit), guard := g }
        (ottl.applyStatement { editor := .set target (.lit lit), guard := g } record)
      = ottl.applyStatement { editor := .set target (.lit lit), guard := g } record := by
  apply ottl.applyStatement_idem_of_editor_idem
  intro r
  simp only [ottl.applyEditor, ottl.evalExpr]
  exact ottl.setPath_idem target lit r
